import Mathlib

/-!
# Verification of the expense-tracker core (src/main.py)

A shallow embedding of the repository's budget engine and ledger
operations.  Python floats (monetary amounts) are modelled as rationals
(`ℚ`); calendar dates are modelled by the structure `Date` together with
the proleptic-Gregorian ordinal conversion `Date.toOrdinal`, which is the
arithmetic CPython's `datetime.date` uses for date subtraction; the
database table is modelled as a list of rows in insertion order; the
ambient clock (`date.today()`) is made an explicit argument.
-/

namespace ExpenseTracker

/-- Calendar date (no time of day), as CPython's `datetime.date`. -/
structure Date where
  year : Nat
  month : Nat
  day : Nat
deriving DecidableEq, Repr

/-- Gregorian leap-year test, as CPython `datetime._is_leap`. -/
def isLeap (y : Nat) : Bool :=
  y % 4 == 0 && (y % 100 != 0 || y % 400 == 0)

/-- Days in the 365 days preceding January 1 of `y`,
as CPython `datetime._days_before_year`. -/
def daysBeforeYear (y : Nat) : Nat :=
  (y - 1) * 365 + (y - 1) / 4 - (y - 1) / 100 + (y - 1) / 400

/-- Length of month `m` in a non-leap year, as CPython `_DAYS_IN_MONTH`. -/
def daysInMonth (m : Nat) : Nat :=
  [31, 28, 31, 30, 31, 30, 31, 31, 30, 31, 30, 31].getD (m - 1) 0

/-- Days in year `y` preceding the first of month `m`,
as CPython `datetime._days_before_month`. -/
def daysBeforeMonth (y m : Nat) : Nat :=
  ((List.range (m - 1)).map (fun i => daysInMonth (i + 1))).sum +
    (if 2 < m && isLeap y then 1 else 0)

/-- Proleptic Gregorian ordinal of a date (`date.toordinal()`);
`⟨1, 1, 1⟩.toOrdinal = 1`.  Subtraction of two `datetime.date`s yields a
timedelta whose `.days` is exactly the difference of their ordinals. -/
def Date.toOrdinal (d : Date) : Nat :=
  daysBeforeYear d.year + daysBeforeMonth d.year d.month + d.day

/-- A row of the `expenses` table (class `Expense` in src/main.py):
integer primary key `id`, float `amount` (modelled as `ℚ`), string
`description`, date `created_at`. -/
structure Expense where
  id : Nat
  amount : ℚ
  description : String
  created_at : Date
deriving DecidableEq, Repr

/-- Python `str.strip()`: drop leading and trailing whitespace.  The
source never calls it; it is needed only to state the claim about
descriptions that are "empty after trimming". -/
def pyStrip (s : String) : String :=
  ⟨((s.data.dropWhile Char.isWhitespace).reverse.dropWhile
      Char.isWhitespace).reverse⟩

/-- Request body schema for adding an expense (class `ExpenseCreate`):
just an amount and a description, no further constraints. -/
structure ExpenseCreate where
  amount : ℚ
  description : String
deriving DecidableEq, Repr

/-- Constant `TOTAL_START_BUDGET = 47300.0` (src/main.py line 78). -/
def TOTAL_START_BUDGET : ℚ := 47300

/-- Constant `END_DATE = date(2026, 2, 10)` (src/main.py line 79). -/
def END_DATE : Date := ⟨2026, 2, 10⟩

/-- Round a rational to the nearest integer, ties to even — the rounding
mode of Python's builtin `round`. -/
def roundHalfEven (q : ℚ) : ℤ :=
  let n := ⌊q⌋
  let r := q - (n : ℚ)
  if r < 1 / 2 then n
  else if 1 / 2 < r then n + 1
  else if n % 2 = 0 then n else n + 1

/-- Python `round(x, 2)`: round to two fractional decimal digits. -/
def round2 (q : ℚ) : ℚ :=
  (roundHalfEven (q * 100) : ℚ) / 100

/-- Source line 100: `total_spent = sum(e.amount for e in all_expenses)`. -/
def total_spent (records : List Expense) : ℚ :=
  (records.map (fun e => e.amount)).sum

/-- Source line 103: `remaining_budget = TOTAL_START_BUDGET - total_spent`. -/
def remaining_budget (records : List Expense) : ℚ :=
  TOTAL_START_BUDGET - total_spent records

/-- Source line 107: `days_left = (END_DATE - today).days`, the whole-day
difference of the two dates, i.e. the difference of their ordinals. -/
def days_left (today : Date) : ℤ :=
  (END_DATE.toOrdinal : ℤ) - (today.toOrdinal : ℤ)

/-- Source line 111: `daily_limit = remaining_budget / days_left if
days_left > 0 else remaining_budget`. -/
def daily_limit (records : List Expense) (today : Date) : ℚ :=
  if 0 < days_left today then
    remaining_budget records / (days_left today : ℚ)
  else
    remaining_budget records

/-- The JSON object returned by `GET /dashboard` (lines 114-120). -/
structure Dashboard where
  remaining_total_rsd : ℚ
  days_left : ℤ
  daily_limit_rsd : ℚ
  total_spent : ℚ
  today : Date
deriving DecidableEq, Repr

/-- Endpoint `get_dashboard` (src/main.py lines 94-120).  The call
`today = date.today()` on line 106 reads the ambient clock; that clock
value is the explicit `today` argument here. -/
def get_dashboard (records : List Expense) (today : Date) : Dashboard :=
  { remaining_total_rsd := round2 (remaining_budget records)
    days_left := days_left today
    daily_limit_rsd := round2 (daily_limit records today)
    total_spent := round2 (total_spent records)
    today := today }

/-- SQLite `rowid` assignment for an integer primary key: one more than
the largest existing id (1 on an empty table). -/
def next_id (db : List Expense) : Nat :=
  (db.map (fun e => e.id)).foldr max 0 + 1

/-- The JSON object returned by `POST /spend` (line 91):
`{"status": "ok", "saved": expense}` where `expense` is the request
body, not the stored row. -/
structure AddResponse where
  status : String
  saved : ExpenseCreate
deriving DecidableEq, Repr

/-- Endpoint `add_expense` (src/main.py lines 84-91): builds an `Expense` row from
the request body, inserts and commits it, and returns the status object.
`created_at` defaults to `date.today()` (line 47), passed here as the
explicit `today` argument.  No validation is performed anywhere on the
path: `ExpenseCreate` (lines 56-59) declares plain `float`/`str` fields
with no validators, and the endpoint body has no checks. -/
def add_expense (expense : ExpenseCreate) (today : Date) (db : List Expense) :
    List Expense × AddResponse :=
  let db_expense : Expense :=
    ⟨next_id db, expense.amount, expense.description, today⟩
  (db ++ [db_expense], ⟨"ok", expense⟩)

/-- Value `RedirectResponse(url="/", status_code=303)`. -/
structure Redirect where
  url : String
  status_code : Nat
deriving DecidableEq, Repr

/-- Endpoint `ui_delete_expense` (src/main.py lines 163-169): finds the first row
with the given id, deletes it if present, and returns a redirect to `/`
in either case. -/
def ui_delete_expense (expense_id : Nat) (db : List Expense) :
    List Expense × Redirect :=
  match db.find? (fun e => e.id == expense_id) with
  | some _ => (db.eraseP (fun e => e.id == expense_id), ⟨"/", 303⟩)
  | none => (db, ⟨"/", 303⟩)

/-- Insert a row into a list kept sorted by id descending. -/
def insertDesc (e : Expense) : List Expense → List Expense
  | [] => [e]
  | x :: xs => if e.id ≤ x.id then x :: insertDesc e xs else e :: x :: xs

/-- SQL `ORDER BY id DESC`: sort the table by id descending. -/
def sortDesc : List Expense → List Expense
  | [] => []
  | x :: xs => insertDesc x (sortDesc xs)

/-- SQL `LIMIT n` as SQLite executes it (the default backend, line 30):
at most `n` rows when `n ≥ 0`, no bound when `n` is negative. -/
def applyLimit (n : ℤ) (l : List Expense) : List Expense :=
  if n < 0 then l else l.take n.toNat

/-- The JSON object returned by `GET /history` (lines 134-137). -/
structure HistoryResponse where
  count : Nat
  history : List Expense
deriving DecidableEq, Repr

/-- Endpoint `get_history` (src/main.py lines 123-137):
`db.query(Expense).order_by(Expense.id.desc()).limit(limit).all()`,
returned together with its length as `count`. -/
def get_history (limit : ℤ) (db : List Expense) : HistoryResponse :=
  let history := applyLimit limit (sortDesc db)
  ⟨history.length, history⟩

/-- Endpoint `GET /history` called with the `limit` query parameter omitted: the
declared default is `limit: int = 10` (line 124). -/
def get_history_omitted (db : List Expense) : HistoryResponse :=
  get_history 10 db

/-- The rows of `l` are sorted by id descending. -/
def sortedByIdDesc (l : List Expense) : Prop :=
  l.Pairwise (fun a b => b.id ≤ a.id)

/-- Eleven concrete ledger rows (ids 1 to 11), used to exercise the
history endpoint's default limit. -/
def db11 : List Expense :=
  (List.range 11).map (fun i => ⟨i + 1, 1, "x", ⟨2026, 1, 1⟩⟩)

/-! ## Helper lemmas about the insertion sort modelling `ORDER BY id DESC` -/

/-- Membership in an `insertDesc` result comes from the inserted element
or the original list. -/
lemma mem_insertDesc {e x : Expense} {l : List Expense}
    (h : x ∈ insertDesc e l) : x = e ∨ x ∈ l := by
  induction l with
  | nil => simpa [insertDesc] using h
  | cons y ys ih =>
    rw [insertDesc] at h
    by_cases hc : e.id ≤ y.id
    · rw [if_pos hc] at h
      rcases List.mem_cons.mp h with h1 | h2
      · exact Or.inr (h1 ▸ List.mem_cons_self y ys)
      · rcases ih h2 with h3 | h4
        · exact Or.inl h3
        · exact Or.inr (List.mem_cons_of_mem y h4)
    · rw [if_neg hc] at h
      rcases List.mem_cons.mp h with h1 | h2
      · exact Or.inl h1
      · exact Or.inr h2

/-- Inserting into a list sorted by id descending keeps it sorted. -/
lemma sortedByIdDesc_insertDesc {e : Expense} {l : List Expense}
    (h : sortedByIdDesc l) : sortedByIdDesc (insertDesc e l) := by
  induction l with
  | nil => simp [insertDesc, sortedByIdDesc]
  | cons y ys ih =>
    rw [sortedByIdDesc, List.pairwise_cons] at h
    obtain ⟨hy, hys⟩ := h
    by_cases hc : e.id ≤ y.id
    · rw [sortedByIdDesc, insertDesc, if_pos hc, List.pairwise_cons]
      refine ⟨?_, ih hys⟩
      intro b hb
      rcases mem_insertDesc hb with rfl | hb'
      · exact hc
      · exact hy b hb'
    · rw [sortedByIdDesc, insertDesc, if_neg hc, List.pairwise_cons]
      refine ⟨?_, ?_⟩
      · intro b hb
        rcases List.mem_cons.mp hb with rfl | hb'
        · exact Nat.le_of_lt (Nat.lt_of_not_le hc)
        · exact Nat.le_trans (hy b hb') (Nat.le_of_lt (Nat.lt_of_not_le hc))
      · exact List.pairwise_cons.mpr ⟨hy, hys⟩

/-- The result of `insertDesc` is a permutation of consing. -/
lemma insertDesc_perm (e : Expense) (l : List Expense) :
    List.Perm (insertDesc e l) (e :: l) := by
  induction l with
  | nil => simp [insertDesc]
  | cons y ys ih =>
    rw [insertDesc]
    by_cases hc : e.id ≤ y.id
    · rw [if_pos hc]
      exact (ih.cons y).trans (List.Perm.swap e y ys)
    · rw [if_neg hc]

/-- Sorting permutes the table. -/
lemma sortDesc_perm (l : List Expense) : List.Perm (sortDesc l) l := by
  induction l with
  | nil => rfl
  | cons x xs ih =>
    rw [sortDesc]
    exact (insertDesc_perm x (sortDesc xs)).trans (ih.cons x)

/-- The sort really sorts by id descending. -/
lemma sortedByIdDesc_sortDesc (l : List Expense) :
    sortedByIdDesc (sortDesc l) := by
  induction l with
  | nil => simp [sortDesc, sortedByIdDesc]
  | cons x xs ih =>
    rw [sortDesc]
    exact sortedByIdDesc_insertDesc ih

/-- After erasing the unique match, nothing in the remainder matches. -/
lemma eraseP_all_not {α : Type _} (p : α → Bool) (l : List α)
    (h : l.countP p ≤ 1) : ∀ x ∈ l.eraseP p, ¬ p x = true := by
  induction l with
  | nil => intro x hx; simp at hx
  | cons a as ih =>
    intro x hx
    by_cases ha : p a = true
    · rw [List.eraseP_cons, ha, cond_true] at hx
      have h0 : as.countP p = 0 := by
        rw [List.countP_cons, if_pos ha] at h
        omega
      exact List.countP_eq_zero.mp h0 x hx
    · rw [List.eraseP_cons, Bool.of_not_eq_true ha, cond_false] at hx
      rcases List.mem_cons.mp hx with rfl | hx'
      · exact ha
      · refine ih ?_ x hx'
        rw [List.countP_cons] at h
        omega


/-! ## Claims -/

/-- C1: for every list of records and every date, the engine's
`daily_limit` equals `remaining_budget / days_left` when `days_left > 0`
and equals `remaining_budget` exactly when `days_left <= 0`; division
only ever happens under the positive guard, and the computation is total
(never fails) for any date. -/
theorem daily_limit_branch_spec (records : List Expense) (today : Date) :
    (0 < days_left today →
      daily_limit records today = remaining_budget records / (days_left today : ℚ)) ∧
    (days_left today ≤ 0 → daily_limit records today = remaining_budget records) := by
  constructor
  · intro h
    rw [daily_limit, if_pos h]
  · intro h
    rw [daily_limit, if_neg (by omega)]

/-- Witness for C1: a pre-deadline date takes the division branch and a
post-deadline date gets the whole remainder. -/
theorem daily_limit_branch_spec_witness :
    (0 < days_left ⟨2026, 2, 1⟩ ∧
      daily_limit [] ⟨2026, 2, 1⟩ = remaining_budget [] / (days_left ⟨2026, 2, 1⟩ : ℚ)) ∧
    (days_left ⟨2026, 3, 1⟩ ≤ 0 ∧
      daily_limit [] ⟨2026, 3, 1⟩ = remaining_budget []) :=
  ⟨⟨by decide, (daily_limit_branch_spec [] ⟨2026, 2, 1⟩).1 (by decide)⟩,
   ⟨by decide, (daily_limit_branch_spec [] ⟨2026, 3, 1⟩).2 (by decide)⟩⟩

/-- C2 counterexample: the add operation performs no validation.  An
amount of `-5` (negative) with description `""` (empty after trimming)
does not fail: it writes a row and returns the ok payload. -/
theorem add_expense_accepts_invalid_counterexample :
    (-5 : ℚ) < 0 ∧ pyStrip "" = "" ∧
    add_expense ⟨-5, ""⟩ ⟨2026, 1, 1⟩ [] =
      ([⟨1, -5, "", ⟨2026, 1, 1⟩⟩], ⟨"ok", ⟨-5, ""⟩⟩) :=
  ⟨by norm_num, by decide, rfl⟩

/-- C2 amended: the add operation validates nothing; every well-typed
call (any amount, any description) succeeds and appends exactly one row
to the store. -/
theorem add_expense_always_writes (c : ExpenseCreate) (today : Date)
    (db : List Expense) :
    (add_expense c today db).1 =
      db ++ [⟨next_id db, c.amount, c.description, today⟩] ∧
    (add_expense c today db).1.length = db.length + 1 := by
  refine ⟨rfl, ?_⟩
  show (db ++ [(⟨next_id db, c.amount, c.description, today⟩ : Expense)]).length = _
  simp

/-- C3: the dashboard computation is a pure function of the records and
the clock reading (`date.today()` on line 106, here the explicit `today`
argument): two invocations with the same records and the same today give
identical snapshots. -/
theorem get_dashboard_deterministic (records₁ records₂ : List Expense)
    (today₁ today₂ : Date) (hr : records₁ = records₂) (ht : today₁ = today₂) :
    get_dashboard records₁ today₁ = get_dashboard records₂ today₂ := by
  rw [hr, ht]

/-- Witness for C3. -/
theorem get_dashboard_deterministic_witness :
    get_dashboard [] END_DATE = get_dashboard [] END_DATE :=
  get_dashboard_deterministic [] [] END_DATE END_DATE rfl rfl

/-- C4 counterexample: with eleven rows in the store, calling the
history endpoint with the limit omitted returns only the default of 10
rows, not all 11; and the non-positive limit 0 returns no rows at all,
not all of them. -/
theorem get_history_default_limit_counterexample :
    db11.length = 11 ∧
    (get_history_omitted db11).history.length = 10 ∧
    (get_history 0 db11).history.length = 0 :=
  ⟨by decide, by decide, by decide⟩

/-- C4 amended: the history operation returns rows ordered by id
descending; a non-negative supplied limit bounds the row count, the
omitted limit defaults to 10 (so it does not mean "all"), and only a
negative limit returns the whole store (SQLite `LIMIT` semantics). -/
theorem get_history_ordered_limited (limit : ℤ) (db : List Expense) :
    sortedByIdDesc (get_history limit db).history ∧
    (0 ≤ limit → (get_history limit db).history.length ≤ limit.toNat) ∧
    (limit < 0 → (get_history limit db).history = sortDesc db) ∧
    (limit < 0 → List.Perm (get_history limit db).history db) ∧
    get_history_omitted db = get_history 10 db := by
  have hsort := sortedByIdDesc_sortDesc db
  refine ⟨?_, ?_, ?_, ?_, rfl⟩
  · show sortedByIdDesc (applyLimit limit (sortDesc db))
    rw [applyLimit]
    split
    · exact hsort
    · exact List.Pairwise.sublist (List.take_sublist _ _) hsort
  · intro h
    show (applyLimit limit (sortDesc db)).length ≤ limit.toNat
    rw [applyLimit, if_neg (by omega)]
    exact List.length_take_le _ _
  · intro h
    show applyLimit limit (sortDesc db) = sortDesc db
    rw [applyLimit, if_pos h]
  · intro h
    show List.Perm (applyLimit limit (sortDesc db)) db
    rw [applyLimit, if_pos h]
    exact sortDesc_perm db

/-- Witness for C4 amended: a supplied limit of 1 bounds the output and
a negative limit returns the whole sorted store. -/
theorem get_history_ordered_limited_witness :
    ((0 : ℤ) ≤ 1 ∧
      (get_history 1 [⟨2, 3, "b", ⟨2026, 1, 2⟩⟩, ⟨1, 2, "a", ⟨2026, 1, 1⟩⟩]).history.length ≤
        (1 : ℤ).toNat) ∧
    ((-1 : ℤ) < 0 ∧
      (get_history (-1) [⟨2, 3, "b", ⟨2026, 1, 2⟩⟩, ⟨1, 2, "a", ⟨2026, 1, 1⟩⟩]).history =
        sortDesc [⟨2, 3, "b", ⟨2026, 1, 2⟩⟩, ⟨1, 2, "a", ⟨2026, 1, 1⟩⟩]) :=
  ⟨⟨by decide,
    (get_history_ordered_limited 1
      [⟨2, 3, "b", ⟨2026, 1, 2⟩⟩, ⟨1, 2, "a", ⟨2026, 1, 1⟩⟩]).2.1 (by decide)⟩,
   ⟨by decide,
    (get_history_ordered_limited (-1)
      [⟨2, 3, "b", ⟨2026, 1, 2⟩⟩, ⟨1, 2, "a", ⟨2026, 1, 1⟩⟩]).2.2.1 (by decide)⟩⟩

/-- C5: the snapshot's remaining budget is exactly the starting budget
minus the sum of all recorded amounts, with no clamping: overspending
makes it strictly negative. -/
theorem remaining_budget_unclamped (records : List Expense) :
    remaining_budget records = TOTAL_START_BUDGET - total_spent records ∧
    (TOTAL_START_BUDGET < total_spent records → remaining_budget records < 0) := by
  refine ⟨rfl, ?_⟩
  intro h
  rw [remaining_budget]
  linarith

/-- Witness for C5: one expense of 47301 overspends the 47300 budget and
the remainder goes negative. -/
theorem remaining_budget_unclamped_witness :
    TOTAL_START_BUDGET < total_spent [⟨1, 47301, "food", ⟨2026, 1, 1⟩⟩] ∧
    remaining_budget [⟨1, 47301, "food", ⟨2026, 1, 1⟩⟩] < 0 :=
  ⟨by norm_num [TOTAL_START_BUDGET, total_spent],
   (remaining_budget_unclamped [⟨1, 47301, "food", ⟨2026, 1, 1⟩⟩]).2
     (by norm_num [TOTAL_START_BUDGET, total_spent])⟩

/-- C6 counterexample: the delete endpoint does not return `true` then
`false`: it returns the identical `303` redirect to `/` on the first
call (id present) and on the second call (id absent). -/
theorem ui_delete_returns_redirect_counterexample :
    (ui_delete_expense 1 [⟨1, 5, "x", ⟨2026, 1, 1⟩⟩]).2 = ⟨"/", 303⟩ ∧
    (ui_delete_expense 1 (ui_delete_expense 1 [⟨1, 5, "x", ⟨2026, 1, 1⟩⟩]).1).2 =
      (ui_delete_expense 1 [⟨1, 5, "x", ⟨2026, 1, 1⟩⟩]).2 :=
  ⟨rfl, rfl⟩

/-- C6 amended: deleting a present id removes exactly that one row,
deleting it again is a no-op (absence is never an error), the store
after the second call equals the store after the first, and both calls
return the same redirect response rather than a boolean. -/
theorem ui_delete_idempotent (eid : Nat) (db : List Expense)
    (huniq : db.countP (fun e => e.id == eid) ≤ 1)
    (hmem : ∃ e ∈ db, e.id = eid) :
    (ui_delete_expense eid db).2 = ⟨"/", 303⟩ ∧
    (ui_delete_expense eid (ui_delete_expense eid db).1).1 =
      (ui_delete_expense eid db).1 ∧
    (ui_delete_expense eid (ui_delete_expense eid db).1).2 =
      (ui_delete_expense eid db).2 ∧
    (ui_delete_expense eid db).1.length + 1 = db.length := by
  obtain ⟨e, he, heid⟩ := hmem
  have hpe : (fun x : Expense => x.id == eid) e = true := by simp [heid]
  have hsome : (db.find? (fun x : Expense => x.id == eid)).isSome :=
    List.find?_isSome.mpr ⟨e, he, hpe⟩
  obtain ⟨y, hy⟩ := Option.isSome_iff_exists.mp hsome
  have hfst : (ui_delete_expense eid db).1 =
      db.eraseP (fun x => x.id == eid) := by
    simp [ui_delete_expense, hy]
  have hsnd : (ui_delete_expense eid db).2 = ⟨"/", 303⟩ := by
    simp [ui_delete_expense, hy]
  have hnone : (db.eraseP (fun x : Expense => x.id == eid)).find?
      (fun x => x.id == eid) = none :=
    List.find?_eq_none.mpr (eraseP_all_not _ _ huniq)
  have hsecond : ui_delete_expense eid (db.eraseP (fun x => x.id == eid)) =
      (db.eraseP (fun x => x.id == eid), ⟨"/", 303⟩) := by
    rw [ui_delete_expense, hnone]
  refine ⟨hsnd, ?_, ?_, ?_⟩
  · rw [hfst, hsecond]
  · rw [hfst, hsecond, hsnd]
  · rw [hfst]
    have hlen : (db.eraseP (fun x => x.id == eid)).length = db.length - 1 :=
      List.length_eraseP_of_mem he hpe
    have hpos := List.length_pos_of_mem he
    omega

/-- Witness for C6 amended: a one-row store with id 1, deleted twice. -/
theorem ui_delete_idempotent_witness :
    (([⟨1, 5, "x", ⟨2026, 1, 1⟩⟩] : List Expense).countP (fun e => e.id == 1) ≤ 1) ∧
    ((ui_delete_expense 1 [⟨1, 5, "x", ⟨2026, 1, 1⟩⟩]).2 = ⟨"/", 303⟩ ∧
     (ui_delete_expense 1 (ui_delete_expense 1 [⟨1, 5, "x", ⟨2026, 1, 1⟩⟩]).1).1 =
       (ui_delete_expense 1 [⟨1, 5, "x", ⟨2026, 1, 1⟩⟩]).1 ∧
     (ui_delete_expense 1 (ui_delete_expense 1 [⟨1, 5, "x", ⟨2026, 1, 1⟩⟩]).1).2 =
       (ui_delete_expense 1 [⟨1, 5, "x", ⟨2026, 1, 1⟩⟩]).2 ∧
     (ui_delete_expense 1 [⟨1, 5, "x", ⟨2026, 1, 1⟩⟩]).1.length + 1 =
       ([⟨1, 5, "x", ⟨2026, 1, 1⟩⟩] : List Expense).length) :=
  ⟨by decide,
   ui_delete_idempotent 1 [⟨1, 5, "x", ⟨2026, 1, 1⟩⟩] (by decide) (by decide)⟩

/-- C7 counterexample: the add operation's response does not contain the
freshly assigned id: adding the same request to two stores that assign
different next ids (1 and 2) yields the identical response. -/
theorem add_expense_response_lacks_id_counterexample :
    (add_expense ⟨5, "x"⟩ ⟨2026, 1, 1⟩ []).2 =
      (add_expense ⟨5, "x"⟩ ⟨2026, 1, 1⟩ [⟨1, 7, "y", ⟨2026, 1, 1⟩⟩]).2 ∧
    next_id [] = 1 ∧ next_id [⟨1, 7, "y", ⟨2026, 1, 1⟩⟩] = 2 :=
  ⟨rfl, rfl, by decide⟩

/-- C7 amended: a successful add persists the new row (with the freshly
assigned id) as the last element of the store, but returns only a status
object echoing the request body; the response carries no id. -/
theorem add_expense_echoes_request (c : ExpenseCreate) (today : Date)
    (db : List Expense) :
    (add_expense c today db).2 = ⟨"ok", c⟩ ∧
    (add_expense c today db).1.getLast? =
      some ⟨next_id db, c.amount, c.description, today⟩ := by
  refine ⟨rfl, ?_⟩
  show (db ++ [(⟨next_id db, c.amount, c.description, today⟩ : Expense)]).getLast? = _
  simp

/-- C8: `days_left` is the whole-day difference between the deadline and
today — positive strictly before the deadline, zero on the deadline
date, negative after it. -/
theorem days_left_whole_days (today : Date) :
    days_left today = (END_DATE.toOrdinal : ℤ) - (today.toOrdinal : ℤ) ∧
    (today.toOrdinal < END_DATE.toOrdinal → 0 < days_left today) ∧
    (today = END_DATE → days_left today = 0) ∧
    (END_DATE.toOrdinal < today.toOrdinal → days_left today < 0) := by
  refine ⟨rfl, ?_, ?_, ?_⟩
  · intro h
    rw [days_left]
    omega
  · intro h
    subst h
    rw [days_left]
    omega
  · intro h
    rw [days_left]
    omega

/-- Witness for C8: February 1 2026 is before the deadline, the deadline
date itself gives zero, March 1 2026 is after it. -/
theorem days_left_whole_days_witness :
    (Date.toOrdinal ⟨2026, 2, 1⟩ < END_DATE.toOrdinal ∧ 0 < days_left ⟨2026, 2, 1⟩) ∧
    days_left ⟨2026, 2, 10⟩ = 0 ∧
    (END_DATE.toOrdinal < Date.toOrdinal ⟨2026, 3, 1⟩ ∧ days_left ⟨2026, 3, 1⟩ < 0) :=
  ⟨⟨by decide, (days_left_whole_days ⟨2026, 2, 1⟩).2.1 (by decide)⟩,
   (days_left_whole_days ⟨2026, 2, 10⟩).2.2.1 rfl,
   ⟨by decide, (days_left_whole_days ⟨2026, 3, 1⟩).2.2.2 (by decide)⟩⟩

/-- C9: rounding to two digits happens only on the output fields of the
snapshot; `daily_limit` itself is computed from the unrounded remaining
budget and unrounded sum of amounts, at full precision. -/
theorem rounding_at_presentation_only (records : List Expense) (today : Date) :
    (get_dashboard records today).remaining_total_rsd =
      round2 (remaining_budget records) ∧
    (get_dashboard records today).total_spent = round2 (total_spent records) ∧
    (get_dashboard records today).daily_limit_rsd =
      round2 (daily_limit records today) ∧
    daily_limit records today =
      (if 0 < days_left today then
        (TOTAL_START_BUDGET - (records.map (fun e => e.amount)).sum) /
          (days_left today : ℚ)
      else TOTAL_START_BUDGET - (records.map (fun e => e.amount)).sum) :=
  ⟨rfl, rfl, rfl, rfl⟩

/-- C10: the history response's `count` field is the length of the
returned history list. -/
theorem get_history_count_consistent (limit : ℤ) (db : List Expense) :
    (get_history limit db).count = (get_history limit db).history.length :=
  rfl

end ExpenseTracker
